import Mathlib

/-
Verification of the browser control-plane service (src/api.py) against its
natural-language specification.  Each Python function relevant to the claims
is shallowly embedded as an executable Lean definition; environment behaviour
(the browser, the OS, the network) is abstracted into explicit input records,
with one field per independent outcome the Python code branches on.
-/

set_option autoImplicit false

namespace StudioWebApi

/-! ### Ports and the alert-guard wrapper (src/api.py, handle_alerts, lines 222-246)

`handle_alerts` reads `kwargs.get('debugging_port', 9222)` from the keyword
arguments of the wrapped view function and passes it to `connect_to_chrome`.
Flask calls a view function with keyword arguments taken from the URL rule
variables only; none of the guarded routes declares a URL variable, so the
wrapper always receives an empty kwargs mapping.  The JSON request body,
which the endpoint bodies read via `data.get('debugging_port', 9222)`, is
never visible to the wrapper. -/

def default_debugging_port : Nat := 9222

/-- Models `kwargs.get('debugging_port', 9222)` in `handle_alerts` (line 228). -/
def wrapperKwargsPort (kwargs : List (String × Nat)) : Nat :=
  match kwargs.lookup "debugging_port" with
  | some p => p
  | none => default_debugging_port

/-- The kwargs Flask passes to these view functions: the routes declare no
URL variables, so the mapping is empty. -/
def flask_route_kwargs : List (String × Nat) := []

/-- The part of a guarded HTTP request relevant to session addressing: the
optional `debugging_port` field of the JSON body. -/
structure GuardedRequest where
  bodyDebuggingPort : Option Nat
deriving DecidableEq

/-- The expression `data.get('debugging_port', 9222)` as executed inside the endpoint
bodies (e.g. `click_element`, line 663). -/
def requestBodyPort (req : GuardedRequest) : Nat :=
  req.bodyDebuggingPort.getD default_debugging_port

/-- The port to which `handle_alerts` opens its connection (line 228-229)
when a guarded endpoint processes `req`: it consults only the (empty) view
kwargs, never the request body. -/
def handle_alerts_connection_port (_req : GuardedRequest) : Nat :=
  wrapperKwargsPort flask_route_kwargs

/-! ### Retry behaviour of `handle_alerts` (lines 222-246)

The wrapper loops `for attempt in range(max_attempts)` with
`max_attempts = 3`; each attempt first calls `connect_to_chrome` (lines
632-636).  On an exception it re-raises when `attempt == max_attempts - 1`
and otherwise sleeps one second and retries.  For this claim the wrapped
body is abstracted as succeeding; the failure under study is the
connection step itself, so `connect` maps the attempt index to the outcome
of `connect_to_chrome` on that attempt. -/

def handle_alerts_max_attempts : Nat := 3

/-- The `time.sleep(1)` backoff between attempts (line 245). -/
def handle_alerts_backoff : Nat := 1

structure GuardOutcome where
  connectionAttempts : Nat
  backoffUnits : Nat
  result : Except String Unit

/-- The retry loop of `handle_alerts`, with `r` attempts remaining. -/
def handle_alerts_loop (connect : Nat → Except String Unit) : Nat → Nat → GuardOutcome
  | _, 0 => ⟨0, 0, Except.ok ()⟩
  | attempt, r + 1 =>
    match connect attempt with
    | Except.ok _ => ⟨1, 0, Except.ok ()⟩
    | Except.error e =>
      if r = 0 then ⟨1, 0, Except.error e⟩
      else
        let rest := handle_alerts_loop connect (attempt + 1) r
        ⟨rest.connectionAttempts + 1, rest.backoffUnits + handle_alerts_backoff, rest.result⟩

def handle_alerts_run (connect : Nat → Except String Unit) : GuardOutcome :=
  handle_alerts_loop connect 0 handle_alerts_max_attempts

/-! ### URL scheme handling in `go_to_url` (lines 882-884)

`if not re.match(r'^\w+://', url): url = f'https://{url}'`.  The regex is
anchored at the start; `\w+` greedily consumes word characters (the model
uses the ASCII reading: letters, digits, underscore), and since `:` is not
a word character the match succeeds exactly when the maximal word-character
prefix is nonempty and is followed by the three characters `://`. -/

def isWordChar (c : Char) : Bool :=
  c.isAlphanum || c == '_'

def hasScheme (url : String) : Bool :=
  let cs := url.toList
  let w := cs.takeWhile isWordChar
  !w.isEmpty && ((cs.drop w.length).take 3 == [':', '/', '/'])

def normalizeUrl (url : String) : String :=
  if hasScheme url then url else "https://" ++ url

/-! ### `go_to_url` (lines 870-968)

Environment fields correspond to the branches of the Python code: whether a
URL was supplied, whether `GET /json` succeeded, whether an active page tab
was found, and whether the ready-state wait finished within the timeout.
`currentUrl` and `currentTitle` are `driver.current_url` and `driver.title`
at response time.  In the timeout branch the code returns a 504 with fields
`error`, `partial_url`, `partial_title` and `status` (lines 933-940); the
numeric elapsed-time text inside the error message and the `elapsed_time`
field of the success response are elided from the model.  `navTarget` is
the URL assigned to `window.location.href` (line 927). -/

structure NavEnv where
  url : Option String
  tabsOk : Bool
  activeTabOk : Bool
  loadCompletes : Bool
  currentUrl : String
  currentTitle : String
deriving DecidableEq

structure NavResult where
  httpStatus : Nat
  fields : List (String × String)
  navTarget : Option String
deriving DecidableEq

def go_to_url (env : NavEnv) : NavResult :=
  match env.url with
  | none => ⟨400, [("error", "URL not provided")], none⟩
  | some u =>
    let target := normalizeUrl u
    if env.tabsOk = false then ⟨500, [("error", "Failed to get tabs information")], none⟩
    else if env.activeTabOk = false then ⟨500, [("error", "Could not find active tab")], none⟩
    else if env.loadCompletes = false then
      ⟨504,
       [("error", "Navigation timed out"),
        ("partial_url", env.currentUrl),
        ("partial_title", env.currentTitle),
        ("status", "timeout")],
       some target⟩
    else
      ⟨200,
       [("message", "Navigation completed successfully"),
        ("current_url", env.currentUrl),
        ("page_title", env.currentTitle),
        ("fully_loaded", "true")],
       some target⟩

/-! ### The `look` capture endpoint (lines 1167-1256)

The environment records the three outcomes the code branches on: whether
the body-presence wait succeeds within its 15-second budget, the outcome of
the pyautogui screenshot pipeline (grab, crop, base64-encode; `none` means
it raises), and the outcome of the `outerHTML` script (`none` means it
raises).  The environment is deterministic within one call, so the
screenshot re-taken inside the `except` handler (lines 1234-1249) has the
same outcome as the first attempt.  The response model keeps one field per
JSON key the code can emit; `none` means the key is absent.  Note the code
captures the screenshot first and the DOM second inside one `try` block,
and the `except` handler returns HTTP 200 in all cases. -/

structure LookEnv where
  bodyPresent : Bool
  screenshotRes : Option String
  domRes : Option String
  currentUrl : String
  pageTitle : String
deriving DecidableEq

structure LookResponse where
  httpStatus : Nat
  screenshot : Option String
  dom_content : Option String
  error_screenshot : Option String
  errorMsg : Option String
  current_url : Option String
  page_title : Option String
deriving DecidableEq

/-- The catch-all `except` handler of `look` (lines 1232-1256): re-takes a
best-effort screenshot and returns HTTP 200 with an error annotation; no
DOM content is included. -/
def look_error_path (env : LookEnv) : LookResponse :=
  { httpStatus := 200
  , screenshot := none
  , dom_content := none
  , error_screenshot := env.screenshotRes
  , errorMsg := some "Unexpected error"
  , current_url := some env.currentUrl
  , page_title := some env.pageTitle }

def look (env : LookEnv) : LookResponse :=
  if env.bodyPresent = false then
    match env.screenshotRes with
    | some s =>
      { httpStatus := 200
      , screenshot := some s
      , dom_content := none
      , error_screenshot := none
      , errorMsg := some "Timed out waiting for page to load"
      , current_url := some env.currentUrl
      , page_title := some env.pageTitle }
    | none => look_error_path env
  else
    match env.screenshotRes with
    | none => look_error_path env
    | some s =>
      match env.domRes with
      | none => look_error_path env
      | some d =>
        { httpStatus := 200
        , screenshot := some s
        , dom_content := some d
        , error_screenshot := none
        , errorMsg := none
        , current_url := some env.currentUrl
        , page_title := some env.pageTitle }

/-! ### The DOM text returned by `look` and the unused cap (lines 1144-1165, 1222)

`look` reads `document.documentElement.outerHTML` (line 1222) and places it
verbatim in the response.  The page is modelled as the list of its elements
in document order, each with its serialized markup and whether its bounding
rectangle intersects the viewport; `outerHTML` concatenates every element's
markup regardless of viewport intersection.  `visible_dom_spec` is modelled
from the spec wording (elements filtered to those intersecting the
viewport) for comparison.  `generate_response` (lines 1152-1165) caps its
`dom_content` argument at 1,000,000 characters with a truncation marker,
but `look` never calls it. -/

structure DomElement where
  intersectsViewport : Bool
  markup : String
deriving DecidableEq

def fullOuterHTML (doc : List DomElement) : String :=
  String.join (doc.map (fun e => e.markup))

/-- Modelled from the spec: the visible DOM as the spec describes it,
"filtering to those whose bounding rectangle intersects the current
viewport, concatenating their serialized markup". -/
def visible_dom_spec (doc : List DomElement) : String :=
  String.join ((doc.filter (fun e => e.intersectsViewport)).map (fun e => e.markup))

/-- The DOM text `look` puts into `dom_content` (line 1222): the full
document outerHTML. -/
def look_dom_content (doc : List DomElement) : String :=
  fullOuterHTML doc

/-- The constant `max_dom_size = 1000000` in `generate_response` (line 1155). -/
def max_dom_size : Nat := 1000000

def truncation_marker : String := "... (truncated)"

/-- The DOM transform of `generate_response` (lines 1155-1157). -/
def generate_response_dom (dom : String) : String :=
  if max_dom_size < dom.length then dom.take max_dom_size ++ truncation_marker else dom

/-! ### The in-page console log store (get_console_logging_script, lines 38-163)

`window._consoleLogs` is a JS array; entries are modelled by their index.
The overridden console methods push an entry and then run
`if (window._consoleLogs.length > 1000) window._consoleLogs =
window._consoleLogs.slice(-1000)` (lines 84-95); `slice(-1000)` keeps the
last 1000 entries, i.e. drops `length - 1000` from the front.  The
`error` event listener (lines 103-113) and the `unhandledrejection`
listener (lines 116-124) push to the same array with no length check. -/

def console_log_cap : Nat := 1000

/-- One push through an overridden console method: append, then trim to
the last `console_log_cap` entries when over the cap. -/
def push_console_entry (buf : List Nat) (e : Nat) : List Nat :=
  if console_log_cap < (buf ++ [e]).length then
    (buf ++ [e]).drop ((buf ++ [e]).length - console_log_cap)
  else buf ++ [e]

/-- One push through the uncaught-error or unhandled-rejection listener:
append with no trimming. -/
def push_error_entry (buf : List Nat) (e : Nat) : List Nat :=
  buf ++ [e]

/-- Keeping the most recent `console_log_cap` entries (the effect of
`slice(-1000)`, as a total function). -/
def ring_trim (l : List Nat) : List Nat :=
  l.drop (l.length - console_log_cap)

/-! ### `click_element` on a locator that never matches (lines 656-765)

`click_element` runs `for attempt in range(3)`; every attempt performs the
presence wait `WebDriverWait(driver, wait_time).until(presence_of_element_located(...))`,
which raises `TimeoutException` after `wait_time` when the locator never
matches.  The bare `except Exception` clause catches it, re-raises on the
last attempt and otherwise sleeps `retry_delay = 1` and reconnects
(`establish_stable_connection`) at the start of the next attempt.  The
re-raised exception propagates through `handle_alerts`, which retries the
whole call (fresh connection, pre-alert poll of 2 time-units) up to its own
3 attempts with 1-unit sleeps, and finally escapes to Flask, which turns an
unhandled exception into a 500-class response.  There is no
`except TimeoutException` returning 404 in `click_element`; its sibling
`double_click_element` (lines 850-851) does return 404 on the same
timeout. -/

inductive ClickStep
  | connectChrome
  | alertPoll (t : Nat)
  | presenceWait (t : Nat)
  | retrySleep (t : Nat)
  | reconnect
  | guardSleep (t : Nat)
deriving DecidableEq

def click_max_retries : Nat := 3

def click_retry_delay : Nat := 1

/-- The inner retry loop of `click_element` when the locator never
matches, with `r` attempts remaining; `first` marks attempt 0 (which skips
the `establish_stable_connection` reconnect).  The loop ends by re-raising
the `TimeoutException` of the last attempt. -/
def click_inner_missing_aux (wait_time : Nat) : Nat → Bool → List ClickStep
  | 0, _ => []
  | r + 1, first =>
    (if first then [] else [ClickStep.reconnect]) ++ [ClickStep.presenceWait wait_time] ++
    (if r = 0 then []
     else ClickStep.retrySleep click_retry_delay :: click_inner_missing_aux wait_time r false)

def click_inner_missing (wait_time : Nat) : List ClickStep :=
  click_inner_missing_aux wait_time click_max_retries true

/-- The `handle_alerts` wrapper around the failing click: each guard
attempt connects, polls 2 time-units for a pre-alert, runs the inner loop
(which raises, so the post-alert poll is skipped), and sleeps 1 unit
before the next attempt; after the last attempt the exception escapes. -/
def guarded_click_missing_aux (wait_time : Nat) : Nat → List ClickStep
  | 0 => []
  | r + 1 =>
    ClickStep.connectChrome :: ClickStep.alertPoll 2 :: click_inner_missing wait_time ++
    (if r = 0 then [] else ClickStep.guardSleep 1 :: guarded_click_missing_aux wait_time r)

def guarded_click_missing_trace (wait_time : Nat) : List ClickStep :=
  guarded_click_missing_aux wait_time handle_alerts_max_attempts

/-- The exception escaping `handle_alerts` is converted by Flask into a
500-class response. -/
def guarded_click_missing_status : Nat := 500

/-- Unlike `click_element`, `double_click_element` catches `TimeoutException` and returns
`"Element not found within ... seconds"` with status 404 (lines 850-851). -/
def guarded_double_click_missing_status : Nat := 404

def click_step_time : ClickStep → Nat
  | ClickStep.connectChrome => 0
  | ClickStep.alertPoll t => t
  | ClickStep.presenceWait t => t
  | ClickStep.retrySleep t => t
  | ClickStep.reconnect => 0
  | ClickStep.guardSleep t => t

def trace_time (tr : List ClickStep) : Nat :=
  (tr.map click_step_time).sum

def is_presence_wait : ClickStep → Bool
  | ClickStep.presenceWait _ => true
  | _ => false

/-! ### `start_browser` (lines 357-630) and `clear_chrome_session` (lines 265-320)

The handler reads `refresh_enabled` (default false); only when it is true
does it close/kill a running browser (`close_chrome_gracefully`, lines
330-355, falling back to `kill_chrome_processes`) and sleep.  It then
always calls `clear_chrome_session`, which removes each of a fixed list of
session files/directories that exists in the profile and, when a
`Preferences` file exists, rewrites its `session` section to
`restore_on_startup = 5` with empty `startup_urls` and empty
`last_opened_url`.  Only after that does the handler resolve the chrome
executable path (returning a 400 error when none is found), write a fresh
preferences file, spawn a new chrome process with `subprocess.Popen`,
sleep 2 seconds and inject scripts.  There is no check anywhere for a
browser already answering on the port, and no `alreadyRunning` response
field.  Profile state is modelled by the set of session items present and
the optional content of the `session` section of `Preferences`;
`start_browser` is modelled by the ordered trace of its side effects plus
its HTTP response. -/

/-- The `session_items` list of `clear_chrome_session` (lines 270-282). -/
def chrome_session_items : List String :=
  ["Current Session", "Current Tabs", "Last Session", "Last Tabs", "Sessions",
   "Visited Links", "History", "Login Data", "Network Action Predictor",
   "Network Persistent State", "Last URL"]

structure ChromePrefsSession where
  restore_on_startup : Nat
  startup_urls : List String
  last_opened_url : String
deriving DecidableEq

structure ChromeProfile where
  items : List String
  prefsSession : Option ChromePrefsSession
deriving DecidableEq

/-- The state transformer of `clear_chrome_session`: listed session items
that exist are removed; when a `Preferences` file exists its `session`
section is replaced by `restore_on_startup = 5`, no startup URLs, empty
last opened URL (lines 284-315). -/
def clear_chrome_session (p : ChromeProfile) : ChromeProfile :=
  { items := p.items.filter (fun i => !(decide (i ∈ chrome_session_items)))
  , prefsSession := p.prefsSession.map (fun _ => ⟨5, [], ""⟩) }

inductive StartEvent
  | gracefulClose
  | killProcesses
  | sleepSec (n : Nat)
  | clearSessionItem (name : String)
  | rewriteSessionPrefs
  | chromePathError
  | writeLaunchPrefs
  | spawnChrome (port : Nat)
  | injectScripts
deriving DecidableEq

structure StartEnv where
  refresh_enabled : Bool
  chromeRunning : Bool
  gracefulCloseOk : Bool
  chrome_path_given : Bool
  chrome_path_found : Bool
  debugging_port : Nat
  postStartInfoOk : Bool
deriving DecidableEq

/-- The effect trace of `clear_chrome_session` on profile `p`: one
deletion per listed item that exists (lines 286-296), then the
`Preferences` rewrite when the file exists (lines 301-315). -/
def clear_chrome_session_events (p : ChromeProfile) : List StartEvent :=
  (chrome_session_items.filter (fun i => decide (i ∈ p.items))).map StartEvent.clearSessionItem
  ++ (if p.prefsSession.isSome then [StartEvent.rewriteSessionPrefs] else [])

/-- Models `close_chrome_gracefully` (lines 330-355): returns True immediately
when nothing answers on the port; otherwise closes via the driver (with a
1-second sleep) and reports whether that succeeded. -/
def close_chrome_gracefully_run (env : StartEnv) : Bool × List StartEvent :=
  if env.chromeRunning = false then (true, [])
  else if env.gracefulCloseOk then (true, [StartEvent.gracefulClose, StartEvent.sleepSec 1])
  else (false, [StartEvent.gracefulClose])

/-- The `refresh_enabled` block of `start_browser` (lines 364-370):
graceful close, kill fallback on failure, then a 1-second sleep. -/
def start_browser_refresh_events (env : StartEnv) : List StartEvent :=
  if env.refresh_enabled then
    (close_chrome_gracefully_run env).2
    ++ (if (close_chrome_gracefully_run env).1 then [] else [StartEvent.killProcesses])
    ++ [StartEvent.sleepSec 1]
  else []

/-- Whether a chrome executable path resolves: either supplied in the
request or found among the common install locations (lines 372-393). -/
def chrome_path_resolved (env : StartEnv) : Bool :=
  env.chrome_path_given || env.chrome_path_found

structure StartResult where
  httpStatus : Nat
  responseKeys : List String
  events : List StartEvent
deriving DecidableEq

def start_browser (env : StartEnv) (p : ChromeProfile) : StartResult :=
  let evs := start_browser_refresh_events env ++ clear_chrome_session_events p
  if chrome_path_resolved env then
    { httpStatus := 200
    , responseKeys := if env.postStartInfoOk then ["message", "url", "title"] else ["message"]
    , events := evs ++ [StartEvent.writeLaunchPrefs, StartEvent.spawnChrome env.debugging_port,
                        StartEvent.sleepSec 2, StartEvent.injectScripts] }
  else
    { httpStatus := 400
    , responseKeys := ["error"]
    , events := evs ++ [StartEvent.chromePathError] }

/-- Events of the launch stage of `start_browser`: everything from the
executable-path resolution (the launch decision, lines 379-393) onward. -/
def is_launch_stage : StartEvent → Bool
  | StartEvent.chromePathError => true
  | StartEvent.writeLaunchPrefs => true
  | StartEvent.spawnChrome _ => true
  | StartEvent.injectScripts => true
  | _ => false

def is_spawn_event : StartEvent → Bool
  | StartEvent.spawnChrome _ => true
  | _ => false

end StudioWebApi

namespace StudioWebApi

theorem push_error_foldl (l : List Nat) (init : List Nat) :
    List.foldl push_error_entry init l = init ++ l := by
  induction l generalizing init with
  | nil => simp
  | cons a l ih =>
    rw [List.foldl_cons]
    show List.foldl push_error_entry (init ++ [a]) l = init ++ a :: l
    rw [ih]
    simp

theorem push_console_eq_trim (buf : List Nat) (e : Nat) :
    push_console_entry buf e = ring_trim (buf ++ [e]) := by
  unfold push_console_entry ring_trim
  by_cases h : console_log_cap < (buf ++ [e]).length
  · rw [if_pos h]
  · rw [if_neg h]
    have h0 : (buf ++ [e]).length - console_log_cap = 0 :=
      Nat.sub_eq_zero_of_le (Nat.le_of_not_lt h)
    rw [h0, List.drop_zero]

theorem ring_trim_length_le (l : List Nat) :
    (ring_trim l).length ≤ console_log_cap := by
  simp only [ring_trim, List.length_drop]
  omega

theorem ring_trim_of_le (l : List Nat) (h : l.length ≤ console_log_cap) :
    ring_trim l = l := by
  unfold ring_trim
  rw [Nat.sub_eq_zero_of_le h, List.drop_zero]

theorem ring_trim_append (xs ys : List Nat) :
    ring_trim (ring_trim xs ++ ys) = ring_trim (xs ++ ys) := by
  unfold ring_trim
  have hsplit : xs.drop (xs.length - console_log_cap) ++ ys
      = (xs ++ ys).drop (xs.length - console_log_cap) := by
    rw [List.drop_append_eq_append_drop]
    have h0 : xs.length - console_log_cap - xs.length = 0 := by omega
    rw [h0, List.drop_zero]
  rw [hsplit, List.drop_drop]
  refine congrArg (fun n => List.drop n (xs ++ ys)) ?_
  simp only [List.length_drop, List.length_append]
  omega

theorem push_console_foldl (l : List Nat) (init : List Nat)
    (h : ring_trim init = init) :
    List.foldl push_console_entry init l = ring_trim (init ++ l) := by
  induction l generalizing init with
  | nil => rw [List.foldl_nil, List.append_nil, h]
  | cons a l ih =>
    rw [List.foldl_cons]
    rw [push_console_eq_trim]
    rw [ih (ring_trim (init ++ [a])) (ring_trim_of_le _ (ring_trim_length_le _))]
    rw [ring_trim_append]
    rw [List.append_assoc]
    rfl

/-- C1: the spec claims every guarded endpoint invoked with
`debugging_port = p` has its Alert Guard connection opened to port `p`.
Evaluating the embedded wrapper at the failing input (request body port
9333) shows the guard connects to the fixed default 9222 instead: the
wrapper reads the port from the always-empty Flask kwargs, not from the
request body that the endpoint bodies parse. -/
theorem c1_guard_port_fixed :
    handle_alerts_connection_port ⟨some 9333⟩ = 9222 ∧
    requestBodyPort ⟨some 9333⟩ = 9333 ∧
    handle_alerts_connection_port ⟨some 9333⟩ ≠ requestBodyPort ⟨some 9333⟩ := by
  decide

/-- C6: a connectivity failure persisting across all attempts makes the
alert-guard wrapper perform exactly `handle_alerts_max_attempts = 3`
connection attempts, with a fixed 1-time-unit backoff between successive
attempts (hence 2 backoff units in total), and the exception that
propagates is the final attempt's one. -/
theorem c6_retry_bound (connect : Nat → Except String Unit) (e0 e1 e2 : String)
    (h0 : connect 0 = Except.error e0) (h1 : connect 1 = Except.error e1)
    (h2 : connect 2 = Except.error e2) :
    handle_alerts_run connect =
      ⟨3, 2 * handle_alerts_backoff, Except.error e2⟩ := by
  simp [handle_alerts_run, handle_alerts_max_attempts, handle_alerts_loop,
    h0, h1, h2, handle_alerts_backoff]

/-- C6 witness: the retry bound evaluated on a connection that always
fails with the same error. -/
theorem c6_retry_bound_witness :
    handle_alerts_run (fun _ => Except.error "connection refused") =
      ⟨3, 2 * handle_alerts_backoff, Except.error "connection refused"⟩ :=
  c6_retry_bound (fun _ => Except.error "connection refused")
    "connection refused" "connection refused" "connection refused" rfl rfl rfl

/-- C9: a navigate call whose URL has no `scheme://` match gets the
`https://` prefix prepended before navigation, and a URL that already
carries a scheme is passed through unchanged; the navigated-to target of
`go_to_url` is the normalized URL. -/
theorem c9_url_scheme (u : String) (env : NavEnv) (hu : env.url = some u)
    (ht : env.tabsOk = true) (ha : env.activeTabOk = true) :
    (go_to_url env).navTarget = some (normalizeUrl u) ∧
    (hasScheme u = false → normalizeUrl u = "https://" ++ u) ∧
    (hasScheme u = true → normalizeUrl u = u) := by
  refine ⟨?_, ?_, ?_⟩
  · cases hl : env.loadCompletes <;>
      simp [go_to_url, hu, ht, ha, hl]
  · intro h
    simp [normalizeUrl, h]
  · intro h
    simp [normalizeUrl, h]

/-- C9 witness: `example.com` has no scheme and is navigated to as
`https://example.com`. -/
theorem c9_url_scheme_witness :
    (go_to_url ⟨some "example.com", true, true, true, "https://example.com/", "Example Domain"⟩).navTarget
      = some (normalizeUrl "example.com") ∧
    normalizeUrl "example.com" = "https://" ++ "example.com" := by
  have h := c9_url_scheme "example.com"
    ⟨some "example.com", true, true, true, "https://example.com/", "Example Domain"⟩
    rfl rfl rfl
  exact ⟨h.1, h.2.1 (by decide)⟩

/-- C2 counterexample: the claim says the screenshot and DOM halves of
`look` are captured independently, the obtained half is returned when
exactly one fails, and a hard (non-200) failure occurs when both fail.  At
an input where the screenshot raises but the DOM read would succeed, the
response carries no DOM at all (the DOM half is never captured), yet the
status is 200; and when both halves fail the status is still 200 rather
than a hard failure. -/
theorem c2_look_counterexample :
    (look ⟨true, none, some "<html>ok</html>", "u", "t"⟩).dom_content = none ∧
    (⟨true, none, some "<html>ok</html>", "u", "t"⟩ : LookEnv).domRes.isSome = true ∧
    (look ⟨true, none, some "<html>ok</html>", "u", "t"⟩).httpStatus = 200 ∧
    (look ⟨true, none, none, "u", "t"⟩).httpStatus = 200 := by
  decide

/-- C2 amended: `look` captures the screenshot first and the DOM second
inside one try block, so any failure routes to an error path that retakes a
best-effort screenshot and drops the DOM; every outcome — including both
halves failing — is returned with HTTP status 200, the DOM appears in the
response exactly when the body wait, the screenshot and the DOM read all
succeed, and an error annotation is present exactly when the full capture
did not succeed. -/
theorem c2_look_amended (env : LookEnv) :
    (look env).httpStatus = 200 ∧
    (look env).dom_content =
      (if env.bodyPresent && env.screenshotRes.isSome && env.domRes.isSome
       then env.domRes else none) ∧
    (look env).errorMsg.isSome =
      !(env.bodyPresent && env.screenshotRes.isSome && env.domRes.isSome) := by
  rcases env with ⟨b, s, d, u, t⟩
  cases b <;> cases s <;> cases d <;>
    simp [look, look_error_path]

/-- C5 counterexample: the claim says the DOM text returned by `look`
consists of exactly the markup of elements intersecting the viewport.  For
a document whose sole element does not intersect the viewport, `look`
returns its markup anyway, while the spec-modelled visible DOM is empty. -/
theorem c5_dom_counterexample :
    look_dom_content [⟨false, "<div>offscreen</div>"⟩] = "<div>offscreen</div>" ∧
    visible_dom_spec [⟨false, "<div>offscreen</div>"⟩] = "" ∧
    look_dom_content [⟨false, "<div>offscreen</div>"⟩] ≠
      visible_dom_spec [⟨false, "<div>offscreen</div>"⟩] := by
  decide

/-- C5 amended: `look` returns the full document outerHTML — the markup of
all elements, coinciding with the viewport-filtered text only when every
element intersects the viewport — and applies no size cap; the separate
`generate_response` helper (which `look` does not call) leaves text of at
most 1,000,000 characters unchanged and otherwise truncates to 1,000,000
characters and appends the truncation marker. -/
theorem c5_dom_amended (doc : List DomElement) (s : String) :
    look_dom_content doc = fullOuterHTML doc ∧
    ((∀ e ∈ doc, e.intersectsViewport = true) →
      look_dom_content doc = visible_dom_spec doc) ∧
    (s.length ≤ max_dom_size → generate_response_dom s = s) ∧
    (max_dom_size < s.length →
      generate_response_dom s = s.take max_dom_size ++ truncation_marker) := by
  refine ⟨rfl, ?_, ?_, ?_⟩
  · intro h
    have hf : doc.filter (fun e => e.intersectsViewport) = doc :=
      List.filter_eq_self.mpr h
    simp [look_dom_content, visible_dom_spec, fullOuterHTML, hf]
  · intro h
    simp [generate_response_dom, Nat.not_lt.mpr h]
  · intro h
    simp [generate_response_dom, h]

/-- C5 witness: the amended theorem applied to a one-element document whose
element intersects the viewport, and to a short string under the cap. -/
theorem c5_dom_amended_witness :
    look_dom_content [⟨true, "<p>hi</p>"⟩] = visible_dom_spec [⟨true, "<p>hi</p>"⟩] ∧
    generate_response_dom "<p>hi</p>" = "<p>hi</p>" :=
  ⟨(c5_dom_amended [⟨true, "<p>hi</p>"⟩] "<p>hi</p>").2.1 (by decide),
   (c5_dom_amended [⟨true, "<p>hi</p>"⟩] "<p>hi</p>").2.2.1 (by decide)⟩

/-- C8 counterexample: the claim says a navigate whose page-load wait
exceeds the timeout returns the current URL, the current title, and a
best-effort screenshot.  At a concrete timed-out navigation the response
carries `partial_url` and `partial_title` but no screenshot key at all
(and HTTP status 504). -/
theorem c8_timeout_counterexample :
    (go_to_url ⟨some "example.com", true, true, false, "https://example.com/", "Example"⟩).httpStatus = 504 ∧
    ((go_to_url ⟨some "example.com", true, true, false, "https://example.com/", "Example"⟩).fields.map
        Prod.fst).contains "screenshot" = false ∧
    ("partial_url", "https://example.com/") ∈
      (go_to_url ⟨some "example.com", true, true, false, "https://example.com/", "Example"⟩).fields := by
  decide

/-- C8 amended: on a page-load timeout `go_to_url` returns a 504 response
whose body carries partial info — the current URL as `partial_url` and the
current title as `partial_title`, along with an error message — but no
screenshot. -/
theorem c8_timeout_amended (env : NavEnv) (u : String) (hu : env.url = some u)
    (ht : env.tabsOk = true) (ha : env.activeTabOk = true)
    (hl : env.loadCompletes = false) :
    (go_to_url env).httpStatus = 504 ∧
    ("partial_url", env.currentUrl) ∈ (go_to_url env).fields ∧
    ("partial_title", env.currentTitle) ∈ (go_to_url env).fields ∧
    ((go_to_url env).fields.map Prod.fst).contains "screenshot" = false := by
  simp [go_to_url, hu, ht, ha, hl]

/-- C8 witness: the amended timeout behaviour at a concrete timed-out
navigation. -/
theorem c8_timeout_amended_witness :
    (go_to_url ⟨some "example.com", true, true, false, "https://example.com/", "Example"⟩).httpStatus = 504 ∧
    ("partial_url", "https://example.com/") ∈
      (go_to_url ⟨some "example.com", true, true, false, "https://example.com/", "Example"⟩).fields ∧
    ("partial_title", "Example") ∈
      (go_to_url ⟨some "example.com", true, true, false, "https://example.com/", "Example"⟩).fields ∧
    ((go_to_url ⟨some "example.com", true, true, false, "https://example.com/", "Example"⟩).fields.map
        Prod.fst).contains "screenshot" = false :=
  c8_timeout_amended
    ⟨some "example.com", true, true, false, "https://example.com/", "Example"⟩
    "example.com" rfl rfl rfl rfl

/-- C7 counterexample: the claim says pushing 1500 entries through the
bridge's capture paths — including the uncaught-error and
unhandled-rejection listeners — leaves exactly the most recent 1000.  The
listener paths push without any length check: 1500 entries pushed through
them leave all 1500, not `console_log_cap = 1000`. -/
theorem c7_ring_counterexample :
    (List.foldl push_error_entry [] (List.range 1500)).length = 1500 ∧
    (1500 : Nat) ≠ console_log_cap := by
  constructor
  · rw [push_error_foldl, List.nil_append, List.length_range]
  · decide

/-- C7 amended: only the overridden console methods enforce the
1000-entry cap — a sequence of pushes through them leaves exactly the most
recent `min(n, 1000)` entries, in original order (the final buffer is the
suffix obtained by dropping `n - 1000`) — while the uncaught-error and
unhandled-rejection listeners append to the same buffer without eviction,
leaving all entries. -/
theorem c7_ring_amended (l : List Nat) :
    List.foldl push_console_entry [] l = l.drop (l.length - console_log_cap) ∧
    List.foldl push_error_entry [] l = l := by
  constructor
  · rw [push_console_foldl l [] (ring_trim_of_le [] (Nat.zero_le _)),
      List.nil_append]
    rfl
  · rw [push_error_foldl, List.nil_append]

/-- C4: evaluating the embedded `click_element` at the failing input — a
locator matching no element, `wait_time = 1` — shows the call ends as a
500-class error (the re-raised TimeoutException escapes `handle_alerts`),
after 9 presence waits of one `wait_time` each and 23 time-units in total
(presence waits, alert polls, retry and guard sleeps), not as the claimed
404 within about one wait-time; the sibling `double_click_element` does
return 404 on the same timeout. -/
theorem c4_click_missing_eval :
    guarded_click_missing_status = 500 ∧
    guarded_click_missing_status ≠ 404 ∧
    (guarded_click_missing_trace 1).countP is_presence_wait = 9 ∧
    trace_time (guarded_click_missing_trace 1) = 23 ∧
    guarded_double_click_missing_status = 404 := by
  decide

theorem takeWhile_append_all {α : Type} (p : α → Bool) (l1 l2 : List α)
    (h : ∀ x ∈ l1, p x = true) :
    (l1 ++ l2).takeWhile p = l1 ++ l2.takeWhile p := by
  induction l1 with
  | nil => simp
  | cons a l ih =>
    have ha : p a = true := h a (by simp)
    rw [List.cons_append, List.takeWhile_cons, ha]
    simp only [ite_true]
    rw [ih (fun x hx => h x (by simp [hx]))]
    rfl

theorem refresh_not_launch (env : StartEnv) :
    ∀ e ∈ start_browser_refresh_events env, is_launch_stage e = false := by
  rcases env with ⟨re, cr, gc, pg, pf, port, pi⟩
  cases re <;> cases cr <;> cases gc <;>
    simp [start_browser_refresh_events, close_chrome_gracefully_run, is_launch_stage]

theorem clear_not_launch (p : ChromeProfile) :
    ∀ e ∈ clear_chrome_session_events p, is_launch_stage e = false := by
  intro e he
  unfold clear_chrome_session_events at he
  rcases List.mem_append.mp he with h | h
  · rcases List.mem_map.mp h with ⟨name, _, rfl⟩
    rfl
  · by_cases hp : p.prefsSession.isSome = true
    · rw [if_pos hp] at h
      rcases List.mem_singleton.mp h with rfl
      rfl
    · rw [if_neg hp] at h
      exact absurd h (List.not_mem_nil e)

theorem start_browser_takeWhile (env : StartEnv) (p : ChromeProfile) :
    (start_browser env p).events.takeWhile (fun e => !(is_launch_stage e))
      = start_browser_refresh_events env ++ clear_chrome_session_events p := by
  have hall : ∀ x ∈ start_browser_refresh_events env ++ clear_chrome_session_events p,
      (fun e => !(is_launch_stage e)) x = true := by
    intro x hx
    rcases List.mem_append.mp hx with h | h
    · simp [refresh_not_launch env x h]
    · simp [clear_not_launch p x h]
  unfold start_browser
  by_cases hr : chrome_path_resolved env = true
  · simp only [hr, if_true]
    rw [takeWhile_append_all _ _ _ hall]
    simp [is_launch_stage, List.takeWhile_cons]
  · simp only [hr, if_false, Bool.false_eq_true]
    rw [takeWhile_append_all _ _ _ hall]
    simp [is_launch_stage, List.takeWhile_cons]

theorem countP_spawn_map_clear (l : List String) :
    (l.map StartEvent.clearSessionItem).countP is_spawn_event = 0 := by
  induction l with
  | nil => rfl
  | cons a l ih =>
    rw [List.map_cons, List.countP_cons]
    simp [is_spawn_event, ih]

theorem countP_spawn_refresh (env : StartEnv) :
    (start_browser_refresh_events env).countP is_spawn_event = 0 := by
  rcases env with ⟨re, cr, gc, pg, pf, port, pi⟩
  cases re <;> cases cr <;> cases gc <;> rfl

theorem countP_spawn_clear (p : ChromeProfile) :
    (clear_chrome_session_events p).countP is_spawn_event = 0 := by
  unfold clear_chrome_session_events
  rw [List.countP_append, countP_spawn_map_clear]
  by_cases hp : p.prefsSession.isSome = true
  · rw [if_pos hp]
    rfl
  · rw [if_neg hp]
    rfl

/-- C3 counterexample: the claim says that when a browser already answers
on the port, `start_browser` returns `alreadyRunning=true` and performs no
relaunch.  At an input with a browser already running
(`chromeRunning = true`) and an executable path supplied, the trace of the
call still contains a new chrome spawn, and the response has no
`alreadyRunning` key. -/
theorem c3_relaunch_counterexample :
    StartEvent.spawnChrome 9222 ∈
      (start_browser ⟨false, true, true, true, false, 9222, true⟩ ⟨[], none⟩).events ∧
    (start_browser ⟨false, true, true, true, false, 9222, true⟩ ⟨[], none⟩).responseKeys.contains
      "alreadyRunning" = false := by
  decide

/-- C3 amended: `start_browser` performs no already-running check and has
no `alreadyRunning` response field; every call whose chrome executable
path resolves spawns exactly one new browser process, whether or not a
browser is already answering on the port (and a call whose path does not
resolve spawns none and returns a 400 error). -/
theorem c3_start_browser_amended (env : StartEnv) (p : ChromeProfile) :
    (start_browser env p).events.countP is_spawn_event
      = (if chrome_path_resolved env then 1 else 0) ∧
    (start_browser env p).responseKeys.contains "alreadyRunning" = false := by
  unfold start_browser
  by_cases hr : chrome_path_resolved env = true
  · simp only [hr, if_true]
    constructor
    · rw [List.countP_append, List.countP_append,
        countP_spawn_refresh, countP_spawn_clear]
      rfl
    · by_cases hpi : env.postStartInfoOk = true
      · rw [if_pos hpi]
        rfl
      · rw [if_neg hpi]
        rfl
  · simp only [hr, if_false, Bool.false_eq_true]
    constructor
    · rw [List.countP_append, List.countP_append,
        countP_spawn_refresh, countP_spawn_clear]
      rfl
    · rfl

/-- C10: every call of `start_browser` — for every value of
`refresh_enabled`, whether or not a browser is already running — performs
the session cleanup before any launch-stage event: each listed session
item present in the profile is deleted and, when the profile has a
`Preferences` file, its session section is rewritten, strictly before the
executable-path resolution, the fresh-preferences write and the spawn;
after `clear_chrome_session` no listed session item remains and whatever
`Preferences` content exists has session restore disabled
(`restore_on_startup = 5`, no startup URLs). -/
theorem c10_clear_before_launch (env : StartEnv) (p : ChromeProfile) :
    (∀ name, name ∈ chrome_session_items → name ∈ p.items →
      StartEvent.clearSessionItem name ∈
        (start_browser env p).events.takeWhile (fun e => !(is_launch_stage e))) ∧
    (p.prefsSession.isSome = true →
      StartEvent.rewriteSessionPrefs ∈
        (start_browser env p).events.takeWhile (fun e => !(is_launch_stage e))) ∧
    (∀ name, name ∈ chrome_session_items → name ∉ (clear_chrome_session p).items) ∧
    (∀ s, (clear_chrome_session p).prefsSession = some s →
      s.restore_on_startup = 5 ∧ s.startup_urls = []) := by
  refine ⟨?_, ?_, ?_, ?_⟩
  · intro name hm hp2
    rw [start_browser_takeWhile]
    refine List.mem_append.mpr (Or.inr ?_)
    unfold clear_chrome_session_events
    refine List.mem_append.mpr (Or.inl ?_)
    exact List.mem_map.mpr
      ⟨name, List.mem_filter.mpr ⟨hm, by simp [hp2]⟩, rfl⟩
  · intro hp2
    rw [start_browser_takeWhile]
    refine List.mem_append.mpr (Or.inr ?_)
    unfold clear_chrome_session_events
    refine List.mem_append.mpr (Or.inr ?_)
    rw [if_pos hp2]
    exact List.mem_singleton.mpr rfl
  · intro name hm hmem
    unfold clear_chrome_session at hmem
    rcases List.mem_filter.mp hmem with ⟨_, hcond⟩
    simp at hcond
    exact hcond hm
  · intro s hs
    unfold clear_chrome_session at hs
    cases hps : p.prefsSession with
    | none =>
      rw [hps] at hs
      exact absurd hs (by simp)
    | some x =>
      rw [hps] at hs
      simp at hs
      rw [← hs]
      exact ⟨rfl, rfl⟩

/-- C10 witness: the cleanup-before-launch behaviour at a concrete call
(refresh disabled, browser already running, a profile holding a History
file and a Preferences file with session restore enabled). -/
theorem c10_clear_before_launch_witness :
    (StartEvent.clearSessionItem "History" ∈
      (start_browser ⟨false, true, true, true, false, 9222, true⟩
          ⟨["History"], some ⟨1, ["https://a.example"], "https://a.example"⟩⟩).events.takeWhile
        (fun e => !(is_launch_stage e))) ∧
    (StartEvent.rewriteSessionPrefs ∈
      (start_browser ⟨false, true, true, true, false, 9222, true⟩
          ⟨["History"], some ⟨1, ["https://a.example"], "https://a.example"⟩⟩).events.takeWhile
        (fun e => !(is_launch_stage e))) ∧
    ("History" ∉ (clear_chrome_session
        ⟨["History"], some ⟨1, ["https://a.example"], "https://a.example"⟩⟩).items) ∧
    ((5 : Nat) = 5 ∧ ([] : List String) = []) :=
  ⟨(c10_clear_before_launch ⟨false, true, true, true, false, 9222, true⟩
      ⟨["History"], some ⟨1, ["https://a.example"], "https://a.example"⟩⟩).1
      "History" (by decide) (by decide),
   (c10_clear_before_launch ⟨false, true, true, true, false, 9222, true⟩
      ⟨["History"], some ⟨1, ["https://a.example"], "https://a.example"⟩⟩).2.1
      (by decide),
   (c10_clear_before_launch ⟨false, true, true, true, false, 9222, true⟩
      ⟨["History"], some ⟨1, ["https://a.example"], "https://a.example"⟩⟩).2.2.1
      "History" (by decide),
   (c10_clear_before_launch ⟨false, true, true, true, false, 9222, true⟩
      ⟨["History"], some ⟨1, ["https://a.example"], "https://a.example"⟩⟩).2.2.2
      ⟨5, [], ""⟩ (by decide)⟩

end StudioWebApi
